import Mathlib

/-
Verification development for the serp-tracker repository.

The embedding below is a shallow model of the core tracking engine in
lib/serp-tracker.js together with the relevant parts of
database/schema.sql.  Database tables are modelled as lists of row
records; SQL NULL is modelled as Option; timestamps are integers
(milliseconds since the epoch) and calendar dates are integers (days
since the epoch).  JavaScript truthiness and null-coercion quirks that
the source relies on are modelled explicitly where they matter.
-/

namespace SerpTracker

/-- Position data returned by fetchPositionFromDataForSEO
(lib/serp-tracker.js lines 331 to 336): rank position (null when the
tracked domain is not found within the lookup depth), ranking url and
the list of SERP feature tags.  The raw provider payload is opaque and
not modelled. -/
structure PositionData where
  position : Option Int
  url : Option String
  serpFeatures : List String
  deriving Repr, DecidableEq

/-- Engine configuration, the fields of this.config (and the fixed
this.cacheTimeout from the constructor, lib/serp-tracker.js line 24)
that the core tracking paths read:
defaultSettings.device (line 379), alertThresholds.critical.positionDrop
(line 455), alertThresholds.warning.positionDrop (line 460),
alertThresholds.opportunity.enterTopN (lines 465 and 466),
apiLimits.dataForSEO.batchSize (line 190). -/
structure TrackCfg where
  defaultDevice : String
  criticalDrop : Int
  warningDrop : Int
  enterTopN : Int
  batchSize : Nat
  cacheTimeout : Int
  deriving Repr, DecidableEq

/-- One row of the position_history table (database/schema.sql lines
35 to 48).  The location column has no default and is nullable, hence
Option String. -/
structure PosRow where
  keyword_id : Nat
  position : Option Int
  url : Option String
  date : Int
  device : String
  location : Option String
  serp_features : List String
  data_source : String
  deriving Repr, DecidableEq

/-- SQL equality on the nullable location column as a unique index sees
it: PostgreSQL unique constraints treat NULL as distinct from
everything, including another NULL, so two rows whose location is NULL
never collide on the UNIQUE(keyword_id, date, device, location,
data_source) constraint. -/
def sqlEqLoc : Option String → Option String → Bool
  | some a, some b => a == b
  | _, _ => false

/-- Whether an existing position_history row collides with a new row on
the unique constraint UNIQUE(keyword_id, date, device, location,
data_source) of schema.sql line 47, which is also the arbiter of the
ON CONFLICT clause in savePosition (lib/serp-tracker.js line 368). -/
def posConflict (r s : PosRow) : Bool :=
  r.keyword_id == s.keyword_id && r.date == s.date && r.device == s.device
    && sqlEqLoc r.location s.location && r.data_source == s.data_source

/-- Milliseconds since the epoch to the calendar day used by
new Date().toISOString().split("T")[0] (lib/serp-tracker.js line 378);
valid for nonnegative instants, which is all the model uses. -/
def msToDay (t : Int) : Int := t / 86400000

/-- The row built by the INSERT of savePosition (lib/serp-tracker.js
lines 363 to 383).  Note that the column list of the INSERT does not
mention location, so location is NULL, and that device comes from
this.config.defaultSettings.device (line 379), not from the tracked
keyword row. -/
def mkPosRow (cfg : TrackCfg) (today : Int) (keywordId : Nat)
    (pd : PositionData) : PosRow :=
  { keyword_id := keywordId
    position := pd.position
    url := pd.url
    date := today
    device := cfg.defaultDevice
    location := none
    serp_features := pd.serpFeatures
    data_source := "dataforseo" }

/-- savePosition (lib/serp-tracker.js lines 348 to 397): INSERT INTO
position_history ... ON CONFLICT (keyword_id, date, device, location,
data_source) DO UPDATE SET position, url, serp_features, raw_data.
When the new row collides with existing rows on the unique constraint
the colliding rows are updated, otherwise the new row is appended.
The preceding SELECT of the previous position (lines 353 to 360) only
feeds the return value, which no caller uses, so it is not modelled. -/
def savePosition (cfg : TrackCfg) (today : Int) (tbl : List PosRow)
    (keywordId : Nat) (pd : PositionData) : List PosRow :=
  let newRow := mkPosRow cfg today keywordId pd
  if tbl.any (fun r => posConflict r newRow) then
    tbl.map (fun r =>
      if posConflict r newRow then
        { r with position := newRow.position, url := newRow.url,
                 serp_features := newRow.serp_features }
      else r)
  else
    tbl ++ [newRow]

theorem sqlEqLoc_none (a : Option String) : sqlEqLoc a none = false := by
  cases a <;> rfl

theorem posConflict_mkPosRow (r : PosRow) (cfg : TrackCfg) (today : Int)
    (keywordId : Nat) (pd : PositionData) :
    posConflict r (mkPosRow cfg today keywordId pd) = false := by
  simp [posConflict, mkPosRow, sqlEqLoc_none]

/-- Because savePosition never supplies the location column, the new
row has location NULL and the ON CONFLICT arbiter can never fire: every
call appends a fresh row. -/
theorem savePosition_eq_append (cfg : TrackCfg) (today : Int)
    (tbl : List PosRow) (keywordId : Nat) (pd : PositionData) :
    savePosition cfg today tbl keywordId pd
      = tbl ++ [mkPosRow cfg today keywordId pd] := by
  unfold savePosition
  simp [posConflict_mkPosRow]

/-- The subset of a tracked_keywords row (schema.sql lines 9 to 25)
that trackKeywordBatch reads: id, keyword text, location code and
device (lib/serp-tracker.js lines 240 and 250 to 254). -/
structure Keyword where
  id : Nat
  keyword : String
  location_code : Int
  device : String
  deriving Repr, DecidableEq

/-- One entry of the in-memory cache Map (lib/serp-tracker.js lines
257 to 260): the fetched position data plus the capture timestamp. -/
structure CacheEntry where
  data : PositionData
  timestamp : Int
  deriving Repr, DecidableEq

/-- The cache key template literal of lib/serp-tracker.js line 240:
keyword, location code and device joined by colons. -/
def cacheKey (kw : Keyword) : String :=
  kw.keyword ++ ":" ++ toString kw.location_code ++ ":" ++ kw.device

/-- Map.get on the cache, modelled over an association list. -/
def cacheGet (c : List (String × CacheEntry)) (k : String) :
    Option CacheEntry :=
  (c.find? (fun p => p.1 == k)).map (fun p => p.2)

/-- Map.set on the cache: replace the entry when the key is present,
append otherwise. -/
def cacheSet (c : List (String × CacheEntry)) (k : String)
    (v : CacheEntry) : List (String × CacheEntry) :=
  if c.any (fun p => p.1 == k) then
    c.map (fun p => if p.1 == k then (k, v) else p)
  else
    c ++ [(k, v)]

/-- One row of the sync_log table (schema.sql lines 127 to 139). -/
structure SyncRow where
  id : Nat
  sync_type : String
  project_id : Option String
  keywords_processed : Nat
  keywords_success : Option Nat
  keywords_failed : Option Nat
  errors : Option (List String)
  started_at : Int
  completed_at : Option Int
  duration_seconds : Option Int
  status : String
  deriving Repr, DecidableEq

/-- One row of the tracking_alerts table (schema.sql lines 107 to
117), restricted to the columns createAlert writes. -/
structure AlertRow where
  keyword_id : Nat
  alert_type : String
  position_change : Option Int
  old_position : Option Int
  new_position : Option Int
  message : String
  deriving Repr, DecidableEq

/-- The mutable state a tracking invocation touches: the in-memory
cache and this.stats counters of the SERPTracker instance
(lib/serp-tracker.js lines 23 and 31 to 37), plus the database tables
position_history, sync_log and tracking_alerts. -/
structure TrackerState where
  cache : List (String × CacheEntry)
  posTbl : List PosRow
  statsErrors : List (String × String)
  statsPositionsUpdated : Nat
  apiCallsMade : Nat
  syncLog : List SyncRow
  alerts : List AlertRow
  deriving Repr, DecidableEq

/-- A state with empty cache, empty tables and zeroed counters. -/
def emptyState : TrackerState :=
  { cache := [], posTbl := [], statsErrors := []
    statsPositionsUpdated := 0, apiCallsMade := 0
    syncLog := [], alerts := [] }

/-- The outcome of one provider lookup: fetchPositionFromDataForSEO
either resolves with position data or throws (rate limit, timeout,
invalid response, auth failure), lib/serp-tracker.js lines 279 to
342.  The HTTP parsing itself is opaque to the claims. -/
inductive FetchOutcome where
  | ok (pd : PositionData)
  | providerError (msg : String)
  deriving Repr, DecidableEq

/-- The miss path for one keyword inside trackKeywordBatch
(lib/serp-tracker.js lines 249 to 266) together with the stats
counter bump at the start of fetchPositionFromDataForSEO (line 281):
this.stats.apiCallsMade is incremented before the request, so it
counts failed lookups too; on success the result is cached with the
current timestamp, saved through savePosition and
this.stats.positionsUpdated is bumped; on a provider error the catch
of lines 268 to 271 records the per-keyword error in
this.stats.errors and moves on. -/
def fetchAndStore (cfg : TrackCfg) (now : Int) (st : TrackerState)
    (kw : Keyword) (outcome : FetchOutcome) (ck : String) :
    TrackerState :=
  let st1 := { st with apiCallsMade := st.apiCallsMade + 1 }
  match outcome with
  | FetchOutcome.ok pd =>
      { st1 with
        cache := cacheSet st1.cache ck { data := pd, timestamp := now }
        posTbl := savePosition cfg (msToDay now) st1.posTbl kw.id pd
        statsPositionsUpdated := st1.statsPositionsUpdated + 1 }
  | FetchOutcome.providerError msg =>
      { st1 with statsErrors := st1.statsErrors ++ [(kw.keyword, msg)] }

/-- Processing of a single keyword in trackKeywordBatch
(lib/serp-tracker.js lines 237 to 272): a cache entry younger than
this.cacheTimeout short-circuits the provider call and goes straight
to savePosition with the cached data (the date passed to savePosition
is always the current date, line 378); otherwise the keyword is
fetched.  Note that the cache hit path bumps neither apiCallsMade nor
positionsUpdated and does not refresh the entry timestamp. -/
def trackKeywordOne (cfg : TrackCfg) (now : Int) (st : TrackerState)
    (kw : Keyword) (outcome : FetchOutcome) : TrackerState :=
  let ck := cacheKey kw
  match cacheGet st.cache ck with
  | some e =>
      if now - e.timestamp < cfg.cacheTimeout then
        { st with posTbl := savePosition cfg (msToDay now) st.posTbl kw.id e.data }
      else
        fetchAndStore cfg now st kw outcome ck
  | none => fetchAndStore cfg now st kw outcome ck

/-- trackKeywordBatch (lib/serp-tracker.js lines 236 to 273): the
keywords of the batch are processed sequentially.  Every awaited call
in the loop body sits inside the per-keyword try of lines 238 to 271,
whose catch only records the error and continues, so the function as a
whole never rejects; it is therefore modelled as total. -/
def trackKeywordBatch (cfg : TrackCfg) (now : Int) (st : TrackerState)
    (batch : List (Keyword × FetchOutcome)) : TrackerState :=
  batch.foldl (fun s p => trackKeywordOne cfg now s p.1 p.2) st

/-- createSyncLog (lib/serp-tracker.js lines 552 to 569): INSERT INTO
sync_log with the keyword count, the current instant as started_at and
status running; the serial id (one past the number of existing rows)
is returned to the caller. -/
def createSyncLog (st : TrackerState) (syncType : String)
    (projectId : Option String) (keywordsCount : Nat) (now : Int) :
    TrackerState :=
  { st with syncLog := st.syncLog ++ [{
      id := st.syncLog.length + 1
      sync_type := syncType
      project_id := projectId
      keywords_processed := keywordsCount
      keywords_success := none
      keywords_failed := none
      errors := none
      started_at := now
      completed_at := none
      duration_seconds := none
      status := "running" }] }

/-- completeSyncLog (lib/serp-tracker.js lines 571 to 596): UPDATE of
the row with the given id, filling the success and failure counts, the
error list, completion time and duration.  The status expression of
line 589 is the ternary from the source, whose two branches are both
the literal string completed. -/
def completeSyncLog (st : TrackerState) (logId : Nat)
    (succ fails : Nat) (errs : List String) (now : Int) :
    TrackerState :=
  { st with syncLog := st.syncLog.map (fun r =>
      if r.id = logId then
        { r with
          keywords_success := some succ
          keywords_failed := some fails
          errors := some errs
          completed_at := some now
          duration_seconds := some ((now - r.started_at) / 1000)
          status := if 0 < errs.length then "completed" else "completed" }
      else r) }

/-- Helper for the batch partition, structurally recursive on a fuel
argument so that it computes by reduction.  Every step consumes at
least the head element, so a fuel equal to the list length never runs
out. -/
def chunkGo (bs : Nat) : Nat → List α → List (List α)
  | _, [] => []
  | 0, _ :: _ => []
  | fuel + 1, x :: xs =>
      (x :: xs.take (bs - 1)) :: chunkGo bs fuel (xs.drop (bs - 1))

/-- The batch partition of lib/serp-tracker.js lines 193 to 194:
keywords.slice(i, i + batchSize) for i = 0, batchSize, 2*batchSize,
and so on.  For a batch size of at least one this yields the chunks of
that size; the source loops forever on a batch size of zero, so the
theorems below never instantiate a zero batch size. -/
def chunkList (bs : Nat) (l : List α) : List (List α) :=
  chunkGo bs l.length l

/-- The batch loop of trackKeywordsByPriority (lib/serp-tracker.js
lines 193 to 213).  Each iteration runs trackKeywordBatch inside a
try whose catch would add the whole batch to the failure count; since
trackKeywordBatch never rejects (see above) that catch is dead code
and the success counter grows by the batch length each iteration.

The unexpected parameter injects an exception at the start of the
given iteration, standing for any error raised at a point of the loop
that the per-keyword try does not cover: the source awaits an
inter-batch delay (line 211) and reads batch configuration (lines 190
and 211) outside any inner try, and it has no try/finally, so such an
exception propagates out of the loop (the outer catch of lines 226 to
229 only logs and rethrows).  The state accompanying the error is the
state at the moment of the throw: all previous batch writes are
already durably committed. -/
def runBatches (cfg : TrackCfg) (now : Int) (unexpected : Option Nat) :
    Nat → List (List (Keyword × FetchOutcome)) → Nat → Nat →
    TrackerState → Except String (Nat × Nat) × TrackerState
  | _, [], succ, fails, st => (Except.ok (succ, fails), st)
  | i, b :: bs, succ, fails, st =>
      if unexpected == some i then
        (Except.error "unexpected error escaped batch processing", st)
      else
        runBatches cfg now unexpected (i + 1) bs (succ + b.length)
          fails (trackKeywordBatch cfg now st b)

/-- The result object of trackKeywordsByPriority (lib/serp-tracker.js
lines 183 and 191): aggregate success and failure counts. -/
structure RunResult where
  success : Nat
  failed : Nat
  deriving Repr, DecidableEq

/-- ORDER BY date DESC LIMIT 1 over a set of position_history rows:
the row with the maximal date (the first such row in list order when
dates tie, which the relevant claims never exercise since same-keyword
dates are distinct there). -/
def latestRow (rows : List PosRow) : Option PosRow :=
  rows.foldl (fun acc r =>
    match acc with
    | none => some r
    | some b => if b.date < r.date then some r else some b) none

/-- The row shape of the view v_position_changes_7d (schema.sql lines
181 to 212) for one keyword. -/
structure ChangeRow where
  current_position : Option Int
  previous_position : Option Int
  position_change : Option Int
  trend : String
  deriving Repr, DecidableEq

/-- The view v_position_changes_7d (schema.sql lines 181 to 212),
projected to one active tracked keyword: current_pos is the latest
position_history row of the keyword, prev_pos is the latest row dated
at or before current date minus seven days, position_change is the SQL
difference current minus previous (NULL when either side is NULL) and
trend is the CASE expression classifying a negative difference as
improved, a positive one as declined and anything else (including the
NULL cases) as stable. -/
def vPositionChanges7d (kid : Nat) (tbl : List PosRow) : ChangeRow :=
  let rows := tbl.filter (fun r => r.keyword_id == kid)
  match latestRow rows with
  | none =>
      { current_position := none, previous_position := none
        position_change := none, trend := "stable" }
  | some cur =>
      match latestRow (rows.filter (fun r => r.date ≤ cur.date - 7)) with
      | none =>
          { current_position := cur.position, previous_position := none
            position_change := none, trend := "stable" }
      | some prev =>
          { current_position := cur.position
            previous_position := prev.position
            position_change :=
              match cur.position, prev.position with
              | some a, some b => some (a - b)
              | _, _ => none
            trend :=
              match cur.position, prev.position with
              | some a, some b =>
                  if a - b < 0 then "improved"
                  else if 0 < a - b then "declined" else "stable"
              | _, _ => "stable" }

/-- The alert message templates of createAlert (lib/serp-tracker.js
lines 492 to 497).  Math.abs coerces a null position change to 0. -/
def alertMessage (cfg : TrackCfg) (alertType : String)
    (pc : Option Int) : String :=
  let n := (pc.getD 0).natAbs
  if alertType == "critical" then
    "🔴 Critical: Position dropped " ++ toString n ++ " places"
  else if alertType == "warning" then
    "⚠️ Warning: Position dropped " ++ toString n ++ " places"
  else if alertType == "opportunity" then
    "💡 Opportunity: Keyword entered top " ++ toString cfg.enterTopN
  else
    "👁️ Competitor alert: New competitor in top 3"

/-- createAlert (lib/serp-tracker.js lines 488 to 516): INSERT INTO
tracking_alerts with the keyword, alert type, position change, the old
and new positions from the view row and the templated message. -/
def createAlert (cfg : TrackCfg) (tbl : List AlertRow) (kid : Nat)
    (alertType : String) (pc : Option Int) (c : ChangeRow) :
    List AlertRow :=
  tbl ++ [{ keyword_id := kid
            alert_type := alertType
            position_change := pc
            old_position := c.previous_position
            new_position := c.current_position
            message := alertMessage cfg alertType pc }]

/-- The per-keyword rule chain of generateAlerts (lib/serp-tracker.js
lines 451 to 469), an if / else-if cascade so at most one alert is
created per keyword per run: critical when position_change is at least
the critical drop threshold, else warning when it is at least the
warning threshold, else opportunity when the current position is
within the enter-top-N boundary while the previous position was
beyond it.  The comparisons follow JavaScript semantics where a SQL
NULL arrives as null and coerces to 0 in relational operators, hence
the getD 0. -/
def generateAlertsForKeyword (cfg : TrackCfg) (kid : Nat)
    (c : ChangeRow) (tbl : List AlertRow) : List AlertRow :=
  let pc := c.position_change
  if cfg.criticalDrop ≤ pc.getD 0 then
    createAlert cfg tbl kid "critical" pc c
  else if cfg.warningDrop ≤ pc.getD 0 then
    createAlert cfg tbl kid "warning" pc c
  else if c.current_position.getD 0 ≤ cfg.enterTopN
      ∧ cfg.enterTopN < c.previous_position.getD 0 then
    createAlert cfg tbl kid "opportunity" pc c
  else
    tbl

/-- generateAlerts (lib/serp-tracker.js lines 437 to 482): for each
keyword id, read its v_position_changes_7d row and run the rule
chain.  The keyword ids handed over by trackKeywordsByPriority come
from the active-keyword query, for which the view always produces a
row (the source skips ids with no view row; those do not arise
here). -/
def generateAlerts (cfg : TrackCfg) (kids : List Nat)
    (posTbl : List PosRow) (alertTbl : List AlertRow) :
    List AlertRow :=
  kids.foldl
    (fun acc kid =>
      generateAlertsForKeyword cfg kid (vPositionChanges7d kid posTbl) acc)
    alertTbl

/-- trackKeywordsByPriority (lib/serp-tracker.js lines 172 to 230).
The due-keyword query getKeywordsToTrack is abstracted as the input
list, each keyword paired with the outcome its provider lookup would
have.  Control flow of the source: an empty list returns counts of
zero immediately, before any sync_log row is created (lines 181 to
184); otherwise a sync_log row is opened, the batches are run, the
row is completed with the aggregate counts and the collected batch
errors (always empty, see runBatches), and alerts are generated for
all processed keyword ids.  An error escaping the batch loop reaches
the outer catch, which rethrows (lines 226 to 229), leaving the
sync_log row untouched. -/
def trackKeywordsByPriority (cfg : TrackCfg) (now : Int)
    (kws : List (Keyword × FetchOutcome)) (unexpected : Option Nat)
    (st : TrackerState) : Except String RunResult × TrackerState :=
  if kws.length = 0 then
    (Except.ok { success := 0, failed := 0 }, st)
  else
    let logId := st.syncLog.length + 1
    let st1 := createSyncLog st "dataforseo" none kws.length now
    let rb := runBatches cfg now unexpected 0
      (chunkList cfg.batchSize kws) 0 0 st1
    match rb.1 with
    | Except.error e => (Except.error e, rb.2)
    | Except.ok sf =>
        let st3 := completeSyncLog rb.2 logId sf.1 sf.2 [] now
        let st4 := { st3 with
          alerts := generateAlerts cfg (kws.map (fun p => p.1.id))
            st3.posTbl st3.alerts }
        (Except.ok { success := sf.1, failed := sf.2 }, st4)

/-- One row of the tracked_keywords table (schema.sql lines 9 to 25),
restricted to the columns the import writes plus the timestamps. -/
structure TKRow where
  keyword : String
  project_id : String
  project_name : String
  priority : String
  search_volume : Option Int
  target_position : Option Int
  tracking_frequency : String
  location_code : Int
  location_name : String
  device : String
  is_active : Bool
  created_at : Int
  updated_at : Int
  deriving Repr, DecidableEq

/-- The eleven values bound in the INSERT of importKeywordsFromConfig
(lib/serp-tracker.js lines 116 to 142). -/
structure KeywordSpecIn where
  keyword : String
  project_id : String
  project_name : String
  priority : String
  search_volume : Option Int
  target_position : Option Int
  tracking_frequency : String
  location_code : Int
  location_name : String
  device : String
  is_active : Bool
  deriving Repr, DecidableEq

/-- Collision on the identity constraint UNIQUE(keyword, project_id,
device, location_code) of schema.sql line 24, the arbiter of the ON
CONFLICT clause of line 122 of the source.  All four columns carry
non-null values in every import, so plain equality applies. -/
def tkConflict (r : TKRow) (v : KeywordSpecIn) : Bool :=
  r.keyword == v.keyword && r.project_id == v.project_id
    && r.device == v.device && r.location_code == v.location_code

/-- The INSERT ... ON CONFLICT (keyword, project_id, device,
location_code) DO UPDATE SET priority, search_volume, target_position,
tracking_frequency, updated_at = NOW() ... RETURNING (xmax = 0) as
inserted of importKeywordsFromConfig (lib/serp-tracker.js lines 116
to 142): on conflict the mutable fields of the existing row are
updated and created_at is untouched; the returned flag is true exactly
when a fresh row was inserted (xmax = 0 holds only for a row the
current transaction inserted rather than updated). -/
def upsertTrackedKeyword (now : Int) (tbl : List TKRow)
    (v : KeywordSpecIn) : List TKRow × Bool :=
  if tbl.any (fun r => tkConflict r v) then
    (tbl.map (fun r =>
      if tkConflict r v then
        { r with priority := v.priority
                 search_volume := v.search_volume
                 target_position := v.target_position
                 tracking_frequency := v.tracking_frequency
                 updated_at := now }
      else r), false)
  else
    (tbl ++ [{ keyword := v.keyword, project_id := v.project_id
               project_name := v.project_name, priority := v.priority
               search_volume := v.search_volume
               target_position := v.target_position
               tracking_frequency := v.tracking_frequency
               location_code := v.location_code
               location_name := v.location_name
               device := v.device, is_active := v.is_active
               created_at := now, updated_at := now }], true)

/-- JavaScript truthiness of an optional string: undefined and the
empty string are falsy, every other string is truthy. -/
def jsTruthyStr : Option String → Bool
  | none => false
  | some s => !(s == "")

/-- The tracking_frequency value bound as the seventh INSERT parameter
(lib/serp-tracker.js line 137).  The source expression is

  kw.trackingFrequency || priority === "high" ? "daily" : "weekly"

and JavaScript parses || tighter than the conditional operator, so it
means (kw.trackingFrequency || priority === "high") ? "daily" :
"weekly": the stored value is daily exactly when the configured
frequency is truthy or the priority tier is high, and weekly
otherwise; a configured frequency string is never stored verbatim. -/
def trackingFrequencyValue (tf : Option String) (priority : String) :
    String :=
  if jsTruthyStr tf || priority == "high" then "daily" else "weekly"

/-- JavaScript x || d for an optional number: undefined and 0 fall
back to the default. -/
def jsOrInt (x : Option Int) (d : Int) : Int :=
  match x with
  | some v => if v == 0 then d else v
  | none => d

/-- JavaScript x || d for an optional string: undefined and the empty
string fall back to the default. -/
def jsOrStr (x : Option String) (d : String) : String :=
  match x with
  | some v => if v == "" then d else v
  | none => d

/-- JavaScript x || null for an optional number, as used for
searchVolume and targetPosition (lib/serp-tracker.js lines 135 and
136): undefined and 0 become SQL NULL. -/
def jsIntOrNull (x : Option Int) : Option Int :=
  match x with
  | some v => if v == 0 then none else some v
  | none => none

/-- The defaultSettings block of the tracking configuration that
importKeywordsFromConfig and savePosition read (lib/serp-tracker.js
lines 138 to 140 and 379). -/
structure DefaultSettings where
  locationCode : Int
  locationName : String
  device : String
  deriving Repr, DecidableEq

/-- The per-project configuration fields the import reads: the project
name and the optional location object (lib/serp-tracker.js lines 133,
138 and 139). -/
structure ProjectConfig where
  name : String
  locationCode : Option Int
  locationName : Option String
  deriving Repr, DecidableEq

/-- One keyword entry of a priority bucket in the configuration
(lib/serp-tracker.js lines 131 to 137). -/
structure KeywordConfig where
  keyword : String
  searchVolume : Option Int
  targetPosition : Option Int
  trackingFrequency : Option String
  deriving Repr, DecidableEq

/-- The value tuple importKeywordsFromConfig binds for one keyword
(lib/serp-tracker.js lines 130 to 142): the keyword text, project id
and name, the priority bucket key, searchVolume || null,
targetPosition || null, the computed tracking frequency, the project
location falling back to the defaults, the default device and an
active flag of true. -/
def mkKeywordSpec (ds : DefaultSettings) (pid : String)
    (proj : ProjectConfig) (priority : String) (kw : KeywordConfig) :
    KeywordSpecIn :=
  { keyword := kw.keyword
    project_id := pid
    project_name := proj.name
    priority := priority
    search_volume := jsIntOrNull kw.searchVolume
    target_position := jsIntOrNull kw.targetPosition
    tracking_frequency := trackingFrequencyValue kw.trackingFrequency priority
    location_code := jsOrInt proj.locationCode ds.locationCode
    location_name := jsOrStr proj.locationName ds.locationName
    device := ds.device
    is_active := true }

theorem fetchAndStore_syncLog (cfg : TrackCfg) (now : Int)
    (st : TrackerState) (kw : Keyword) (o : FetchOutcome) (ck : String) :
    (fetchAndStore cfg now st kw o ck).syncLog = st.syncLog := by
  unfold fetchAndStore
  cases o <;> rfl

theorem trackKeywordOne_syncLog (cfg : TrackCfg) (now : Int)
    (st : TrackerState) (kw : Keyword) (o : FetchOutcome) :
    (trackKeywordOne cfg now st kw o).syncLog = st.syncLog := by
  unfold trackKeywordOne
  rcases h : cacheGet st.cache (cacheKey kw) with _ | e <;>
    simp only [h]
  · exact fetchAndStore_syncLog ..
  · split
    · rfl
    · exact fetchAndStore_syncLog ..

theorem trackKeywordBatch_syncLog (cfg : TrackCfg) (now : Int) :
    ∀ (b : List (Keyword × FetchOutcome)) (st : TrackerState),
      (trackKeywordBatch cfg now st b).syncLog = st.syncLog
  | [], _ => rfl
  | p :: bs, st => by
      show (trackKeywordBatch cfg now
        (trackKeywordOne cfg now st p.1 p.2) bs).syncLog = _
      rw [trackKeywordBatch_syncLog cfg now bs, trackKeywordOne_syncLog]

theorem runBatches_syncLog (cfg : TrackCfg) (now : Int)
    (u : Option Nat) :
    ∀ (bs : List (List (Keyword × FetchOutcome))) (i succ fails : Nat)
      (st : TrackerState),
      (runBatches cfg now u i bs succ fails st).2.syncLog = st.syncLog
  | [], _, _, _, _ => rfl
  | b :: bs, i, succ, fails, st => by
      unfold runBatches
      split
      · rfl
      · rw [runBatches_syncLog cfg now u bs, trackKeywordBatch_syncLog]

theorem runBatches_none_fst (cfg : TrackCfg) (now : Int) :
    ∀ (bs : List (List (Keyword × FetchOutcome))) (i succ fails : Nat)
      (st : TrackerState),
      (runBatches cfg now none i bs succ fails st).1
        = Except.ok (succ + (bs.map List.length).sum, fails)
  | [], _, _, _, _ => by simp [runBatches]
  | b :: bs, i, succ, fails, st => by
      unfold runBatches
      have hnb : ((none : Option Nat) == some i) = false := rfl
      rw [hnb]
      simp only [Bool.false_eq_true, if_false]
      rw [runBatches_none_fst cfg now bs]
      simp [Nat.add_assoc]

theorem chunkGo_length_sum (bs : Nat) :
    ∀ (fuel : Nat) (l : List α), l.length ≤ fuel →
      ((chunkGo bs fuel l).map List.length).sum = l.length
  | _, [], _ => by simp [chunkGo]
  | 0, x :: xs, h => by simp at h
  | fuel + 1, x :: xs, h => by
      have hle : (xs.drop (bs - 1)).length ≤ fuel := by
        simp only [List.length_drop]
        simp only [List.length_cons] at h
        omega
      simp only [chunkGo, List.map_cons, List.sum_cons,
        chunkGo_length_sum bs fuel _ hle]
      simp only [List.length_cons, List.length_take, List.length_drop]
      omega

theorem chunkList_length_sum (bs : Nat) (l : List α) :
    ((chunkList bs l).map List.length).sum = l.length :=
  chunkGo_length_sum bs l.length l (le_refl _)

/-- Core fact shared by several claims: when no unexpected exception
escapes the batch loop, a nonempty run started on a fresh audit log
returns success equal to the number of processed keywords and failure
zero, and closes its sync_log row with exactly those counts and status
completed. -/
theorem run_none_closes (cfg : TrackCfg) (now : Int)
    (kws : List (Keyword × FetchOutcome)) (st : TrackerState)
    (hne : kws ≠ []) (hlog : st.syncLog = []) :
    (trackKeywordsByPriority cfg now kws none st).1
      = Except.ok { success := kws.length, failed := 0 } ∧
    (trackKeywordsByPriority cfg now kws none st).2.syncLog.map
        (fun r => (r.status, r.keywords_success, r.keywords_failed))
      = [("completed", some kws.length, some 0)] := by
  have hlen : ¬ kws.length = 0 := by
    simpa [List.length_eq_zero] using hne
  have hfst := runBatches_none_fst cfg now (chunkList cfg.batchSize kws)
    0 0 0 (createSyncLog st "dataforseo" none kws.length now)
  rw [chunkList_length_sum, Nat.zero_add] at hfst
  have hsnd := runBatches_syncLog cfg now none
    (chunkList cfg.batchSize kws) 0 0 0
    (createSyncLog st "dataforseo" none kws.length now)
  constructor
  · unfold trackKeywordsByPriority
    rw [if_neg hlen]
    simp only [hfst]
  · unfold trackKeywordsByPriority
    rw [if_neg hlen]
    simp only [hfst, completeSyncLog]
    rw [hsnd]
    simp [createSyncLog, hlog]

/-- A configuration with the documented default thresholds: critical
drop 10, warning drop 5, enter-top-N 20, batch size 10 and the fixed
one-hour cache timeout of the constructor. -/
def cfg0 : TrackCfg :=
  { defaultDevice := "desktop", criticalDrop := 10, warningDrop := 5
    enterTopN := 20, batchSize := 10, cacheTimeout := 3600000 }

def pdA : PositionData :=
  { position := some 5, url := some "https://example.com/a", serpFeatures := [] }

def pdB : PositionData :=
  { position := some 7, url := some "https://example.com/b", serpFeatures := [] }

theorem mem_savePosition (cfg : TrackCfg) (today : Int)
    (tbl : List PosRow) (kid : Nat) (pd : PositionData) (r : PosRow)
    (hr : r ∈ savePosition cfg today tbl kid pd) :
    r ∈ tbl ∨ r.device = cfg.defaultDevice := by
  rw [savePosition_eq_append] at hr
  rcases List.mem_append.mp hr with h | h
  · exact Or.inl h
  · rcases List.mem_singleton.mp h with rfl
    exact Or.inr rfl

/-- C2: the claim states that saving two position observations for the
same (keyword, date, device, location, data source) tuple leaves
exactly one stored record reflecting the second write.  The code
violates this: savePosition omits the location column from its INSERT,
the stored location is NULL, PostgreSQL unique indexes treat NULL as
distinct, so the ON CONFLICT DO UPDATE arbiter never fires and the
second save adds a second row; evaluating the model at the failing
input shows two stored rows for the identical tuple, the first still
carrying the first write. -/
theorem C2_same_day_second_save_duplicates :
    (savePosition cfg0 20000 (savePosition cfg0 20000 [] 1 pdA) 1 pdB).map
        (fun r => (r.keyword_id, r.date, r.device, r.location,
                   r.data_source, r.position))
      = [(1, 20000, "desktop", none, "dataforseo", some 5),
         (1, 20000, "desktop", none, "dataforseo", some 7)] := by
  rfl

/-- C10: every position_history row written by savePosition carries
the device of the global default settings
(this.config.defaultSettings.device, lib/serp-tracker.js line 379),
not the device column of the tracked keyword; hence for a keyword
whose device differs from the configured default, every row its
tracking run adds has a device different from its own. -/
theorem C10_savePosition_uses_default_device (cfg : TrackCfg)
    (now : Int) (st : TrackerState) (kw : Keyword) (o : FetchOutcome)
    (hd : kw.device ≠ cfg.defaultDevice) :
    ∀ r ∈ (trackKeywordOne cfg now st kw o).posTbl,
      r ∈ st.posTbl ∨ (r.device = cfg.defaultDevice ∧ r.device ≠ kw.device) := by
  intro r hr
  have step : r ∈ st.posTbl ∨ r.device = cfg.defaultDevice := by
    unfold trackKeywordOne at hr
    rcases h : cacheGet st.cache (cacheKey kw) with _ | e <;>
      simp only [h] at hr
    · unfold fetchAndStore at hr
      cases o with
      | ok pd => exact mem_savePosition cfg (msToDay now) st.posTbl kw.id pd r hr
      | providerError msg => exact Or.inl hr
    · split at hr
      · exact mem_savePosition cfg (msToDay now) st.posTbl kw.id e.data r hr
      · unfold fetchAndStore at hr
        cases o with
        | ok pd => exact mem_savePosition cfg (msToDay now) st.posTbl kw.id pd r hr
        | providerError msg => exact Or.inl hr
  rcases step with hin | hdev
  · exact Or.inl hin
  · exact Or.inr ⟨hdev, fun hrk => hd (hrk ▸ hdev)⟩

def kwMob : Keyword :=
  { id := 3, keyword := "serp tracking", location_code := 2840, device := "mobile" }

theorem C10_savePosition_uses_default_device_witness :
    kwMob.device ≠ cfg0.defaultDevice ∧
    ((trackKeywordOne cfg0 50000 emptyState kwMob
        (FetchOutcome.ok pdA)).posTbl.all
      (fun r => r.device == "desktop")) = true := by
  refine ⟨by decide, ?_⟩
  have h := C10_savePosition_uses_default_device cfg0 50000 emptyState
    kwMob (FetchOutcome.ok pdA) (by decide)
  rw [List.all_eq_true]
  intro r hr
  rcases h r hr with hin | ⟨h1, _⟩
  · simp [emptyState] at hin
  · rw [h1]; rfl

/-- C6: re-upserting a tracked keyword with the same identity tuple
(keyword, project, device, location) and different mutable values
keeps a single row, updates priority, search volume, target position
and tracking frequency to the second values, leaves created_at at the
first insert time, and reports the second call as not newly
inserted. -/
theorem C6_upsert_idempotent (t1 t2 : Int) (v1 v2 : KeywordSpecIn)
    (hk : v2.keyword = v1.keyword) (hp : v2.project_id = v1.project_id)
    (hd : v2.device = v1.device) (hl : v2.location_code = v1.location_code) :
    (upsertTrackedKeyword t1 [] v1).2 = true ∧
    (upsertTrackedKeyword t2 (upsertTrackedKeyword t1 [] v1).1 v2).2 = false ∧
    (upsertTrackedKeyword t2 (upsertTrackedKeyword t1 [] v1).1 v2).1
      = [{ keyword := v1.keyword, project_id := v1.project_id
           project_name := v1.project_name, priority := v2.priority
           search_volume := v2.search_volume
           target_position := v2.target_position
           tracking_frequency := v2.tracking_frequency
           location_code := v1.location_code
           location_name := v1.location_name
           device := v1.device, is_active := v1.is_active
           created_at := t1, updated_at := t2 }] := by
  refine ⟨rfl, ?_, ?_⟩ <;>
    simp [upsertTrackedKeyword, tkConflict, hk, hp, hd, hl]

def vA : KeywordSpecIn :=
  { keyword := "best coffee", project_id := "P", project_name := "Coffee"
    priority := "high", search_volume := some 590
    target_position := some 3, tracking_frequency := "daily"
    location_code := 2840, location_name := "USA"
    device := "desktop", is_active := true }

def vB : KeywordSpecIn :=
  { vA with priority := "medium", search_volume := some 320
            target_position := some 5, tracking_frequency := "weekly" }

theorem C6_upsert_idempotent_witness :
    (upsertTrackedKeyword 200 (upsertTrackedKeyword 100 [] vA).1 vB).2 = false ∧
    (upsertTrackedKeyword 200 (upsertTrackedKeyword 100 [] vA).1 vB).1.length = 1 ∧
    (upsertTrackedKeyword 200 (upsertTrackedKeyword 100 [] vA).1 vB).1.map
        (fun r => (r.priority, r.tracking_frequency, r.created_at, r.updated_at))
      = [("medium", "weekly", 100, 200)] := by
  have h := C6_upsert_idempotent 100 200 vA vB rfl rfl rfl rfl
  refine ⟨h.2.1, ?_, ?_⟩
  · rw [h.2.2]; rfl
  · rw [h.2.2]; rfl

theorem trackingFrequencyValue_cases (tf : Option String) (p : String) :
    trackingFrequencyValue tf p = "daily"
      ∨ trackingFrequencyValue tf p = "weekly" := by
  unfold trackingFrequencyValue
  split
  · exact Or.inl rfl
  · exact Or.inr rfl

theorem trackingFrequencyValue_eq_daily_iff (tf : Option String)
    (p : String) :
    trackingFrequencyValue tf p = "daily"
      ↔ (jsTruthyStr tf = true ∨ p = "high") := by
  unfold trackingFrequencyValue
  split
  · next h =>
      simp only [Bool.or_eq_true, beq_iff_eq] at h
      simp [h]
  · next h =>
      simp only [Bool.or_eq_true, beq_iff_eq] at h
      have hne : ("weekly" : String) ≠ "daily" := by decide
      simp [hne, h]

/-- C9: the tracking frequency stored for an imported keyword is
always daily or weekly; it is daily exactly when the configured
trackingFrequency value is truthy or the priority tier is high, and a
configured value such as monthly is never stored verbatim, because the
source expression ( kw.trackingFrequency || priority === high ?
daily : weekly ) applies || before the conditional operator. -/
theorem C9_frequency_always_daily_or_weekly (ds : DefaultSettings)
    (pid : String) (proj : ProjectConfig) (priority : String)
    (kw : KeywordConfig) :
    ((mkKeywordSpec ds pid proj priority kw).tracking_frequency = "daily"
      ∨ (mkKeywordSpec ds pid proj priority kw).tracking_frequency = "weekly") ∧
    ((mkKeywordSpec ds pid proj priority kw).tracking_frequency = "daily"
      ↔ (jsTruthyStr kw.trackingFrequency = true ∨ priority = "high")) ∧
    (mkKeywordSpec ds pid proj priority
        { kw with trackingFrequency := some "monthly" }).tracking_frequency
      = "daily" := by
  refine ⟨?_, ?_, ?_⟩
  · exact trackingFrequencyValue_cases kw.trackingFrequency priority
  · exact trackingFrequencyValue_eq_daily_iff kw.trackingFrequency priority
  · show trackingFrequencyValue (some "monthly") priority = "daily"
    simp [trackingFrequencyValue, jsTruthyStr]

/-- Reduction of the view row when the keyword has a latest observation
and an observation dated at or before seven days earlier, both with a
non-null position. -/
theorem vPositionChanges7d_eq (kid : Nat) (tbl : List PosRow)
    (cur prev : PosRow) (a b : Int)
    (hcur : latestRow (tbl.filter (fun r => r.keyword_id == kid)) = some cur)
    (hprev : latestRow ((tbl.filter (fun r => r.keyword_id == kid)).filter
        (fun r => r.date ≤ cur.date - 7)) = some prev)
    (ha : cur.position = some a) (hb : prev.position = some b) :
    vPositionChanges7d kid tbl =
      { current_position := some a, previous_position := some b
        position_change := some (a - b)
        trend := if a - b < 0 then "improved"
                 else if 0 < a - b then "declined" else "stable" } := by
  unfold vPositionChanges7d
  simp only [hcur, hprev, ha, hb]

/-- A position_history row as savePosition writes it, used for the
concrete scenarios below. -/
def histRow (kid : Nat) (d : Int) (p : Int) : PosRow :=
  { keyword_id := kid, position := some p, url := none, date := d
    device := "desktop", location := none, serp_features := []
    data_source := "dataforseo" }

/-- History of a keyword that moved from position 25 (day 100) to
position 8 (day 107), crossing into the top 20. -/
def tblOpportunity : List PosRow := [histRow 4 100 25, histRow 4 107 8]

/-- C4: with thresholds evaluated in the order critical, warning,
opportunity (first match wins), a keyword whose view row shows a move
from position 25 to position 8 against an enter-top-20 boundary
produces exactly one persisted alert and it is an opportunity alert,
for any positive drop thresholds; moreover the rule chain never adds
more than one alert per keyword, and a matching critical rule always
wins over the later rules. -/
theorem C4_opportunity_single_alert (cfg : TrackCfg) (kid : Nat)
    (tbl : List PosRow) (cur prev : PosRow) (alerts0 : List AlertRow)
    (hN : cfg.enterTopN = 20)
    (hw : 0 < cfg.warningDrop) (hcw : cfg.warningDrop ≤ cfg.criticalDrop)
    (hcur : latestRow (tbl.filter (fun r => r.keyword_id == kid)) = some cur)
    (hprev : latestRow ((tbl.filter (fun r => r.keyword_id == kid)).filter
        (fun r => r.date ≤ cur.date - 7)) = some prev)
    (ha : cur.position = some 8) (hb : prev.position = some 25) :
    generateAlerts cfg [kid] tbl alerts0
      = alerts0 ++ [{ keyword_id := kid, alert_type := "opportunity"
                      position_change := some (-17)
                      old_position := some 25, new_position := some 8
                      message := "💡 Opportunity: Keyword entered top 20" }] ∧
    (∀ (k2 : Nat) (c2 : ChangeRow) (a2 : List AlertRow),
        (generateAlertsForKeyword cfg k2 c2 a2).length ≤ a2.length + 1) ∧
    (∀ (k2 : Nat) (c2 : ChangeRow) (a2 : List AlertRow),
        cfg.criticalDrop ≤ c2.position_change.getD 0 →
        generateAlertsForKeyword cfg k2 c2 a2
          = createAlert cfg a2 k2 "critical" c2.position_change c2) := by
  have hv : vPositionChanges7d kid tbl =
      { current_position := some 8, previous_position := some 25
        position_change := some (-17), trend := "improved" } := by
    rw [vPositionChanges7d_eq kid tbl cur prev 8 25 hcur hprev ha hb]
    decide
  refine ⟨?_, ?_, ?_⟩
  · have hne1 : ¬ (cfg.criticalDrop ≤ (-17 : Int)) := by omega
    have hne2 : ¬ (cfg.warningDrop ≤ (-17 : Int)) := by omega
    have hop : (8 : Int) ≤ cfg.enterTopN ∧ cfg.enterTopN < (25 : Int) := by
      rw [hN]; exact ⟨by norm_num, by norm_num⟩
    simp only [generateAlerts, List.foldl_cons, List.foldl_nil, hv,
      generateAlertsForKeyword, Option.getD_some]
    rw [if_neg hne1, if_neg hne2, if_pos hop]
    simp only [createAlert, alertMessage, hN]
    rfl
  · intro k2 c2 a2
    by_cases h1 : cfg.criticalDrop ≤ c2.position_change.getD 0 <;>
      by_cases h2 : cfg.warningDrop ≤ c2.position_change.getD 0 <;>
      by_cases h3 : c2.current_position.getD 0 ≤ cfg.enterTopN
          ∧ cfg.enterTopN < c2.previous_position.getD 0 <;>
      simp [generateAlertsForKeyword, createAlert, h1, h2, h3]
  · intro k2 c2 a2 hcrit
    simp only [generateAlertsForKeyword]
    rw [if_pos hcrit]

theorem C4_opportunity_single_alert_witness :
    generateAlerts cfg0 [4] tblOpportunity []
      = [{ keyword_id := 4, alert_type := "opportunity"
           position_change := some (-17)
           old_position := some 25, new_position := some 8
           message := "💡 Opportunity: Keyword entered top 20" }] := by
  have h := C4_opportunity_single_alert cfg0 4 tblOpportunity
    (histRow 4 107 8) (histRow 4 100 25) [] rfl (by decide) (by decide)
    (by decide) (by decide) rfl rfl
  exact h.1

/-- History of a keyword that stood at position 5 seven days before
its latest observation at position 16. -/
def tblDecline : List PosRow := [histRow 1 100 5, histRow 1 107 16]

/-- C5: the view compares the latest observation with the latest
observation dated at or before seven days earlier, reports
position_change as current minus previous and classifies a positive
difference as declined and a negative one as improved; the concrete
scenario of position 5 seven days ago and position 16 now yields
declined with position_change 11, and the alert engine then raises a
critical alert for a critical threshold at most 11 and otherwise a
warning alert for a warning threshold at most 11 below the critical
threshold. -/
theorem C5_recent_change_classification (cfgA cfgB : TrackCfg)
    (hA : cfgA.criticalDrop ≤ 11)
    (hBw : cfgB.warningDrop ≤ 11) (hBc : 11 < cfgB.criticalDrop) :
    (∀ (kid : Nat) (tbl : List PosRow) (cur prev : PosRow) (a b : Int),
        latestRow (tbl.filter (fun r => r.keyword_id == kid)) = some cur →
        latestRow ((tbl.filter (fun r => r.keyword_id == kid)).filter
            (fun r => r.date ≤ cur.date - 7)) = some prev →
        cur.position = some a → prev.position = some b →
        vPositionChanges7d kid tbl =
          { current_position := some a, previous_position := some b
            position_change := some (a - b)
            trend := if a - b < 0 then "improved"
                     else if 0 < a - b then "declined" else "stable" }) ∧
    (vPositionChanges7d 1 tblDecline).position_change = some 11 ∧
    (vPositionChanges7d 1 tblDecline).trend = "declined" ∧
    (generateAlertsForKeyword cfgA 1 (vPositionChanges7d 1 tblDecline) []).map
        (fun al => al.alert_type) = ["critical"] ∧
    (generateAlertsForKeyword cfgB 1 (vPositionChanges7d 1 tblDecline) []).map
        (fun al => al.alert_type) = ["warning"] := by
  have hv : vPositionChanges7d 1 tblDecline =
      { current_position := some 16, previous_position := some 5
        position_change := some 11, trend := "declined" } := by
    decide
  refine ⟨vPositionChanges7d_eq, ?_, ?_, ?_, ?_⟩
  · rw [hv]
  · rw [hv]
  · simp only [hv, generateAlertsForKeyword, Option.getD_some]
    rw [if_pos hA]
    rfl
  · have hne : ¬ (cfgB.criticalDrop ≤ (11 : Int)) := by omega
    simp only [hv, generateAlertsForKeyword, Option.getD_some]
    rw [if_neg hne, if_pos hBw]
    rfl

def cfgB0 : TrackCfg := { cfg0 with criticalDrop := 12 }

theorem C5_recent_change_classification_witness :
    cfg0.criticalDrop ≤ 11 ∧
    (vPositionChanges7d 1 tblDecline).position_change = some 11 ∧
    (vPositionChanges7d 1 tblDecline).trend = "declined" ∧
    (generateAlertsForKeyword cfg0 1 (vPositionChanges7d 1 tblDecline) []).map
        (fun al => al.alert_type) = ["critical"] ∧
    (generateAlertsForKeyword cfgB0 1 (vPositionChanges7d 1 tblDecline) []).map
        (fun al => al.alert_type) = ["warning"] := by
  have h := C5_recent_change_classification cfg0 cfgB0
    (by decide) (by decide) (by decide)
  exact ⟨by decide, h.2.1, h.2.2.1, h.2.2.2.1, h.2.2.2.2⟩

theorem fetchAndStore_ok (cfg : TrackCfg) (now : Int)
    (st : TrackerState) (kw : Keyword) (pd : PositionData) (ck : String) :
    fetchAndStore cfg now st kw (FetchOutcome.ok pd) ck
      = { st with
          apiCallsMade := st.apiCallsMade + 1
          cache := cacheSet st.cache ck { data := pd, timestamp := now }
          posTbl := savePosition cfg (msToDay now) st.posTbl kw.id pd
          statsPositionsUpdated := st.statsPositionsUpdated + 1 } := rfl

theorem trackKeywordOne_miss (cfg : TrackCfg) (now : Int)
    (st : TrackerState) (kw : Keyword) (o : FetchOutcome)
    (h : cacheGet st.cache (cacheKey kw) = none) :
    trackKeywordOne cfg now st kw o
      = fetchAndStore cfg now st kw o (cacheKey kw) := by
  unfold trackKeywordOne
  simp only [h]

theorem trackKeywordOne_hit (cfg : TrackCfg) (now : Int)
    (st : TrackerState) (kw : Keyword) (o : FetchOutcome) (e : CacheEntry)
    (h : cacheGet st.cache (cacheKey kw) = some e)
    (hf : now - e.timestamp < cfg.cacheTimeout) :
    trackKeywordOne cfg now st kw o
      = { st with posTbl := savePosition cfg (msToDay now) st.posTbl kw.id e.data } := by
  unfold trackKeywordOne
  simp only [h]
  rw [if_pos hf]

theorem trackKeywordOne_stale (cfg : TrackCfg) (now : Int)
    (st : TrackerState) (kw : Keyword) (o : FetchOutcome) (e : CacheEntry)
    (h : cacheGet st.cache (cacheKey kw) = some e)
    (hf : ¬ (now - e.timestamp < cfg.cacheTimeout)) :
    trackKeywordOne cfg now st kw o
      = fetchAndStore cfg now st kw o (cacheKey kw) := by
  unfold trackKeywordOne
  simp only [h]
  rw [if_neg hf]

/-- C7: a first lookup of a keyword misses the empty cache and makes
one provider invocation; a second lookup of the same (keyword,
location, device) tuple within the cache time-to-live makes no further
provider invocation (whatever outcome a call would have had) yet still
appends a position history row dated with the day of the second
lookup, carrying the cached data; a third lookup issued once the
time-to-live measured from the original capture has elapsed makes a
second provider invocation. -/
theorem C7_cache_short_circuit (cfg : TrackCfg) (st0 : TrackerState)
    (kw : Keyword) (pd pd3 : PositionData) (o2 : FetchOutcome)
    (t1 t2 t3 : Int)
    (h0 : st0.cache = [])
    (h12 : t2 - t1 < cfg.cacheTimeout)
    (h13 : ¬ (t3 - t1 < cfg.cacheTimeout)) :
    (trackKeywordOne cfg t1 st0 kw (FetchOutcome.ok pd)).apiCallsMade
      = st0.apiCallsMade + 1 ∧
    (trackKeywordOne cfg t2 (trackKeywordOne cfg t1 st0 kw
        (FetchOutcome.ok pd)) kw o2).apiCallsMade
      = st0.apiCallsMade + 1 ∧
    (trackKeywordOne cfg t2 (trackKeywordOne cfg t1 st0 kw
        (FetchOutcome.ok pd)) kw o2).posTbl
      = (trackKeywordOne cfg t1 st0 kw (FetchOutcome.ok pd)).posTbl
          ++ [mkPosRow cfg (msToDay t2) kw.id pd] ∧
    (trackKeywordOne cfg t3 (trackKeywordOne cfg t2 (trackKeywordOne cfg
        t1 st0 kw (FetchOutcome.ok pd)) kw o2) kw
        (FetchOutcome.ok pd3)).apiCallsMade
      = st0.apiCallsMade + 2 := by
  have hget0 : cacheGet st0.cache (cacheKey kw) = none := by
    rw [h0]; rfl
  have e1 : trackKeywordOne cfg t1 st0 kw (FetchOutcome.ok pd)
      = { st0 with
          apiCallsMade := st0.apiCallsMade + 1
          cache := cacheSet st0.cache (cacheKey kw)
            { data := pd, timestamp := t1 }
          posTbl := savePosition cfg (msToDay t1) st0.posTbl kw.id pd
          statsPositionsUpdated := st0.statsPositionsUpdated + 1 } := by
    rw [trackKeywordOne_miss cfg t1 st0 kw (FetchOutcome.ok pd) hget0,
      fetchAndStore_ok]
  have hc1 : (trackKeywordOne cfg t1 st0 kw (FetchOutcome.ok pd)).cache
      = [(cacheKey kw, ({ data := pd, timestamp := t1 } : CacheEntry))] := by
    rw [e1]
    show cacheSet st0.cache (cacheKey kw) { data := pd, timestamp := t1 } = _
    rw [h0]
    rfl
  have hget1 : cacheGet (trackKeywordOne cfg t1 st0 kw
        (FetchOutcome.ok pd)).cache (cacheKey kw)
      = some { data := pd, timestamp := t1 } := by
    rw [hc1]
    simp [cacheGet]
  have e2 : trackKeywordOne cfg t2 (trackKeywordOne cfg t1 st0 kw
        (FetchOutcome.ok pd)) kw o2
      = { trackKeywordOne cfg t1 st0 kw (FetchOutcome.ok pd) with
          posTbl := savePosition cfg (msToDay t2)
            (trackKeywordOne cfg t1 st0 kw (FetchOutcome.ok pd)).posTbl
            kw.id pd } :=
    trackKeywordOne_hit cfg t2 _ kw o2 _ hget1 h12
  have hget2 : cacheGet (trackKeywordOne cfg t2 (trackKeywordOne cfg t1
        st0 kw (FetchOutcome.ok pd)) kw o2).cache (cacheKey kw)
      = some { data := pd, timestamp := t1 } := by
    rw [e2]
    exact hget1
  have e3 : trackKeywordOne cfg t3 (trackKeywordOne cfg t2
        (trackKeywordOne cfg t1 st0 kw (FetchOutcome.ok pd)) kw o2) kw
        (FetchOutcome.ok pd3)
      = fetchAndStore cfg t3 (trackKeywordOne cfg t2 (trackKeywordOne
          cfg t1 st0 kw (FetchOutcome.ok pd)) kw o2) kw
          (FetchOutcome.ok pd3) (cacheKey kw) :=
    trackKeywordOne_stale cfg t3 _ kw (FetchOutcome.ok pd3) _ hget2 h13
  refine ⟨by rw [e1], by rw [e2, e1], ?_, ?_⟩
  · rw [e2, savePosition_eq_append]
  · rw [e3, fetchAndStore_ok]
    show (trackKeywordOne cfg t2 (trackKeywordOne cfg t1 st0 kw
      (FetchOutcome.ok pd)) kw o2).apiCallsMade + 1 = st0.apiCallsMade + 2
    rw [e2, e1]

def kwCof : Keyword :=
  { id := 7, keyword := "best coffee", location_code := 2840
    device := "desktop" }

theorem C7_cache_short_circuit_witness :
    ((86401000 : Int) - 86399000 < cfg0.cacheTimeout) ∧
    ¬ ((89999000 : Int) - 86399000 < cfg0.cacheTimeout) ∧
    (trackKeywordOne cfg0 86401000 (trackKeywordOne cfg0 86399000
        emptyState kwCof (FetchOutcome.ok pdA)) kwCof
        (FetchOutcome.ok pdB)).apiCallsMade = 1 ∧
    (trackKeywordOne cfg0 86401000 (trackKeywordOne cfg0 86399000
        emptyState kwCof (FetchOutcome.ok pdA)) kwCof
        (FetchOutcome.ok pdB)).posTbl
      = (trackKeywordOne cfg0 86399000 emptyState kwCof
          (FetchOutcome.ok pdA)).posTbl
          ++ [mkPosRow cfg0 (msToDay 86401000) kwCof.id pdA] ∧
    msToDay 86401000 = 1 ∧ msToDay 86399000 = 0 ∧
    (trackKeywordOne cfg0 89999000 (trackKeywordOne cfg0 86401000
        (trackKeywordOne cfg0 86399000 emptyState kwCof
          (FetchOutcome.ok pdA)) kwCof (FetchOutcome.ok pdB)) kwCof
        (FetchOutcome.ok pdB)).apiCallsMade = 2 := by
  have h := C7_cache_short_circuit cfg0 emptyState kwCof pdA pdB
    (FetchOutcome.ok pdB) 86399000 86401000 89999000 rfl
    (by decide) (by decide)
  exact ⟨by decide, by decide, h.2.1, h.2.2.1, by decide, by decide,
    h.2.2.2⟩

/-- C8 (amended): an invocation with an empty due-list is a no-op
success: it returns zero success and zero failure counts, processes
zero batches, makes no provider calls and leaves the state untouched;
in particular no SyncRun row is opened, because the early return of
lib/serp-tracker.js lines 181 to 184 precedes the createSyncLog call
of line 187. -/
theorem C8_empty_due_list_noop (cfg : TrackCfg) (now : Int)
    (u : Option Nat) (st : TrackerState) :
    trackKeywordsByPriority cfg now [] u st
      = (Except.ok { success := 0, failed := 0 }, st) := rfl

/-- C8 counterexample: the claim as stated also requires a SyncRun to
be opened and immediately closed; the code opens none — after an
empty-due-list invocation the sync_log table is still empty, while the
zero counts and absence of provider calls do hold. -/
theorem C8_empty_due_list_no_sync_run_cex :
    (trackKeywordsByPriority cfg0 1000 [] none emptyState).2.syncLog = [] ∧
    (trackKeywordsByPriority cfg0 1000 [] none emptyState).1
      = Except.ok { success := 0, failed := 0 } ∧
    (trackKeywordsByPriority cfg0 1000 [] none emptyState).2.apiCallsMade
      = 0 := by
  exact ⟨rfl, rfl, rfl⟩

/-- C1 (amended): a tracking invocation whose keyword lookups fail
only with per-keyword provider errors always completes: whatever the
individual outcomes, the run returns success equal to the number of
processed keywords and failure zero, and the closed SyncRun row
records exactly those counts with status completed — never failed and
never left running on this path.  Per-keyword provider failures are
swallowed inside trackKeywordBatch and recorded in the in-memory error
stats, so they are not reflected in the SyncRun counts; a nonzero
failure count could only come from a whole batch throwing, which
per-keyword provider errors never cause. -/
theorem C1_run_completes_with_batch_level_counts (cfg : TrackCfg)
    (now : Int) (kws : List (Keyword × FetchOutcome)) (st : TrackerState)
    (hne : kws ≠ []) (hlog : st.syncLog = []) :
    (trackKeywordsByPriority cfg now kws none st).1
      = Except.ok { success := kws.length, failed := 0 } ∧
    (trackKeywordsByPriority cfg now kws none st).2.syncLog.map
        (fun r => (r.status, r.keywords_success, r.keywords_failed))
      = [("completed", some kws.length, some 0)] :=
  run_none_closes cfg now kws st hne hlog

def kwN (i : Nat) (s : String) : Keyword :=
  { id := i, keyword := s, location_code := 2840, device := "desktop" }

def isProviderError : FetchOutcome → Bool
  | FetchOutcome.providerError _ => true
  | FetchOutcome.ok _ => false

/-- Ten due keywords of which exactly three fail with a provider
error. -/
def kws10 : List (Keyword × FetchOutcome) :=
  [ (kwN 1 "k1", FetchOutcome.ok pdA)
  , (kwN 2 "k2", FetchOutcome.providerError "timeout")
  , (kwN 3 "k3", FetchOutcome.ok pdA)
  , (kwN 4 "k4", FetchOutcome.providerError "rate limited")
  , (kwN 5 "k5", FetchOutcome.ok pdA)
  , (kwN 6 "k6", FetchOutcome.ok pdA)
  , (kwN 7 "k7", FetchOutcome.providerError "invalid response")
  , (kwN 8 "k8", FetchOutcome.ok pdA)
  , (kwN 9 "k9", FetchOutcome.ok pdA)
  , (kwN 10 "k10", FetchOutcome.ok pdA) ]

/-- C1 counterexample: in a run of ten keyword lookups of which
exactly three fail with a provider error, the closed SyncRun does not
record succeeded 7 and failed 3 as the claim states: it records
succeeded 10 and failed 0 (the three failures are only visible in the
in-memory error stats), while the status is completed as claimed. -/
theorem C1_per_keyword_failures_not_counted_cex :
    (kws10.filter (fun p => isProviderError p.2)).length = 3 ∧
    (trackKeywordsByPriority cfg0 1000 kws10 none emptyState).1
      = Except.ok { success := 10, failed := 0 } ∧
    (trackKeywordsByPriority cfg0 1000 kws10 none emptyState).2.syncLog.map
        (fun r => (r.status, r.keywords_success, r.keywords_failed))
      = [("completed", some 10, some 0)] ∧
    (trackKeywordsByPriority cfg0 1000 kws10 none
        emptyState).2.statsErrors.length = 3 := by
  refine ⟨rfl, rfl, ?_, rfl⟩
  rfl

theorem C1_run_completes_with_batch_level_counts_witness :
    kws10 ≠ [] ∧
    (trackKeywordsByPriority cfg0 1000 kws10 none emptyState).1
      = Except.ok { success := 10, failed := 0 } := by
  have h := C1_run_completes_with_batch_level_counts cfg0 1000 kws10
    emptyState (by decide) rfl
  exact ⟨by decide, h.1⟩

/-- C3 (amended): the source has no guaranteed-cleanup path — the
completeSyncLog call simply follows the batch loop.  On every
invocation in which no unexpected error escapes batch processing, the
opened SyncRun is closed with status completed, so no row is left
running; the accompanying counterexample shows that an unexpected
error escaping batch processing propagates and does leave the SyncRun
in running state. -/
theorem C3_sync_run_closed_when_no_unexpected_error (cfg : TrackCfg)
    (now : Int) (kws : List (Keyword × FetchOutcome)) (st : TrackerState)
    (hlog : st.syncLog = []) :
    ∀ r ∈ (trackKeywordsByPriority cfg now kws none st).2.syncLog,
      r.status = "completed" := by
  by_cases hne : kws = []
  · subst hne
    intro r hr
    have hst : (trackKeywordsByPriority cfg now [] none st).2 = st := rfl
    rw [hst, hlog] at hr
    exact absurd hr (List.not_mem_nil r)
  · have h2 := (run_none_closes cfg now kws st hne hlog).2
    intro r hr
    rcases hL : (trackKeywordsByPriority cfg now kws none st).2.syncLog
      with _ | ⟨a, t⟩
    · rw [hL] at hr
      exact absurd hr (List.not_mem_nil r)
    · rw [hL] at hr h2
      simp only [List.map_cons, List.cons.injEq] at h2
      obtain ⟨fa, ft⟩ := h2
      have ht : t = [] := List.map_eq_nil_iff.mp ft
      subst ht
      rcases List.mem_singleton.mp hr with rfl
      have := congrArg Prod.fst fa
      simpa using this

theorem C3_sync_run_closed_when_no_unexpected_error_witness :
    (trackKeywordsByPriority cfg0 1000 kws10 none emptyState).2.syncLog.all
      (fun r => r.status == "completed") = true := by
  have h := C3_sync_run_closed_when_no_unexpected_error cfg0 1000 kws10
    emptyState rfl
  rw [List.all_eq_true]
  intro r hr
  rw [h r hr]
  rfl

def kws2 : List (Keyword × FetchOutcome) :=
  [ (kwN 1 "alpha", FetchOutcome.ok pdA)
  , (kwN 2 "beta", FetchOutcome.ok pdB) ]

def cfgB1 : TrackCfg := { cfg0 with batchSize := 1 }

/-- C3 counterexample: with a batch size of one and an unexpected
exception escaping at the start of the second batch iteration (a point
the per-keyword try does not cover, such as the awaited inter-batch
delay or the batch configuration access), the invocation rethrows and
the opened SyncRun row stays in running state: the claimed
guaranteed-cleanup closure does not exist in the code. -/
theorem C3_unexpected_error_leaves_running_cex :
    (trackKeywordsByPriority cfgB1 1000 kws2 (some 1) emptyState).1
      = Except.error "unexpected error escaped batch processing" ∧
    (trackKeywordsByPriority cfgB1 1000 kws2 (some 1)
        emptyState).2.syncLog.map (fun r => r.status) = ["running"] := by
  exact ⟨rfl, rfl⟩

end SerpTracker
